import Mathlib

/-!
Shallow embedding of `milky-way-planets-and-their-relative-distances-to-earth.py`.

The embedded parts are the Distance Tracker core (the `update` frame callback and
the statistics computed in `update_table`), the reset/stop logic of
`start_simulation` / `stop_simulation`, the date-sequence generator
`update_dates`, and the GUI event wiring (buttons and year text boxes), together
with proofs of the specified properties.

Modelling conventions: ephemeris position vectors are rational triples; the
planar Euclidean norm produces a real number; Python dictionaries keyed by the
static planet set become functions out of `Planet` (for the mutable counters)
or association lists in iteration order (for `current_distances`); the mutable
module-level globals become an explicit state record threaded through an event
step function.
-/

namespace MilkyWay

/-- Keys of `planet_map` / entries of `planets`, in dictionary insertion order. -/
inductive Planet where
  | Mercury
  | Venus
  | Earth
  | Mars
  | Jupiter
  | Saturn
  | Uranus
  | Neptune
deriving DecidableEq

open Planet

/-- `planets = list(planet_map.keys())` (insertion order of the dict literal). -/
def planets : List Planet := [Mercury, Venus, Earth, Mars, Jupiter, Saturn, Uranus, Neptune]

/-- `table_planets = [p for p in planets if p != "Earth"]`. -/
def table_planets : List Planet := planets.filter (fun p => decide (p ≠ Earth))

/-- The inline list comprehension `[p for p in planets if p != "Earth"]` used
repeatedly inside `update` (same elements and order as `table_planets`). -/
def nonEarth : List Planet := planets.filter (fun p => decide (p ≠ Earth))

/-- Ephemeris keys actually queried: `eph['SUN']` and the `planet_map` targets. -/
inductive Body where
  | sun
  | planet (p : Planet)
deriving DecidableEq

/-- A position vector as returned by `eph[key].at(date).position.au`. -/
abbrev Vec3 := ℚ × ℚ × ℚ

/-- The ephemeris responses at one fixed time point: `body ↦ eph[body].at(date).position.au`. -/
abbrev Eph := Body → Vec3

/-- Componentwise vector subtraction of position vectors. -/
def sub3 (a b : Vec3) : Vec3 := (a.1 - b.1, a.2.1 - b.2.1, a.2.2 - b.2.2)

/-- `v[:2]`: keep the first two coordinates (planar projection). -/
def proj2 (v : Vec3) : ℚ × ℚ := (v.1, v.2.1)

/-- Planar Euclidean norm, `np.linalg.norm` applied to the difference of two
2-vectors (one row of `np.linalg.norm(planet_positions - earth_pos[:2], axis=1)`). -/
noncomputable def dist2 (p q : ℚ × ℚ) : ℝ :=
  Real.sqrt (((p.1 : ℝ) - (q.1 : ℝ)) ^ 2 + ((p.2 : ℝ) - (q.2 : ℝ)) ^ 2)

/-- The process-wide tracking data: `frame_count`, `closest_counts`, `distance_sums`. -/
structure Stats where
  frame_count : ℕ
  closest_counts : Planet → ℕ
  distance_sums : Planet → ℝ

/-- Round to the nearest integer, halves to the even neighbour — the rounding
rule used by both `np.round` and Python's built-in `round`. -/
def roundHalfEven {α : Type} [LinearOrderedField α] [FloorRing α] (x : α) : ℤ :=
  if x - ⌊x⌋ < 1 / 2 then ⌊x⌋
  else if 1 / 2 < x - ⌊x⌋ then ⌊x⌋ + 1
  else if ⌊x⌋ % 2 = 0 then ⌊x⌋ else ⌊x⌋ + 1

/-- `round(x, 2)` / `np.round(x, 2)`: round to 2 decimal places. -/
def round2 {α : Type} [LinearOrderedField α] [FloorRing α] (x : α) : α :=
  (roundHalfEven (100 * x) : ℤ) / 100

/-- `np.argmin`: index of the minimum of a list, first occurrence on ties. -/
def argminIdx {α : Type} [LinearOrder α] [Inhabited α] : List α → ℕ
  | [] => 0
  | [_] => 0
  | x :: y :: rest =>
    if x ≤ (y :: rest).getD (argminIdx (y :: rest)) default then 0
    else argminIdx (y :: rest) + 1

/-- `earth_pos = eph["EARTH"].at(date).position.au - sun.at(date).position.au`. -/
def earth_pos (e : Eph) : Vec3 := sub3 (e (Body.planet Earth)) (e Body.sun)

/-- `planet_positions`: for each non-Earth planet, its heliocentric position
truncated to the first two coordinates. -/
def planet_positions (e : Eph) : List (ℚ × ℚ) :=
  nonEarth.map (fun p => proj2 (sub3 (e (Body.planet p)) (e Body.sun)))

/-- `distances = np.linalg.norm(planet_positions - earth_pos[:2], axis=1)`. -/
noncomputable def distances (e : Eph) : List ℝ :=
  (planet_positions e).map (fun q => dist2 q (proj2 (earth_pos e)))

/-- The distance of one body, exactly as it appears as an entry of `distances`. -/
noncomputable def bodyDist (e : Eph) (p : Planet) : ℝ :=
  dist2 (proj2 (sub3 (e (Body.planet p)) (e Body.sun))) (proj2 (earth_pos e))

/-- `min_index = np.argmin(distances)`. -/
noncomputable def min_index (e : Eph) : ℕ := argminIdx (distances e)

/-- `closest_planet = [p for p in planets if p != "Earth"][min_index]`. -/
noncomputable def closest_planet (e : Eph) : Planet := nonEarth.getD (min_index e) Mercury

/-- `current_distances = dict(zip([p for p in planets if p != "Earth"], np.round(distances, 2)))`,
kept as an association list in dictionary insertion order. -/
noncomputable def current_distances (e : Eph) : List (Planet × ℝ) :=
  nonEarth.zip ((distances e).map round2)

/-- The loop `for planet, dist in current_distances.items(): distance_sums[planet] += dist`. -/
def addSums (s : Planet → ℝ) : List (Planet × ℝ) → (Planet → ℝ)
  | [] => s
  | (p, d) :: rest => addSums (fun q => if q = p then s q + d else s q) rest

/-- The mutation of the tracking data performed by one call of the animation
callback `update(frame)`: `frame_count` is incremented, each planet's rounded
distance is added to `distance_sums`, and `closest_counts[closest_planet]` is
incremented (the `if closest_planet:` guard is always true, the name being a
non-empty string). -/
noncomputable def update (e : Eph) (st : Stats) : Stats :=
  { frame_count := st.frame_count + 1
    closest_counts := fun q =>
      if q = closest_planet e then st.closest_counts q + 1 else st.closest_counts q
    distance_sums := addSums st.distance_sums (current_distances e) }

/-- Dictionary lookup `current_distances[p]` on the association list. -/
noncomputable def keyOf (cd : List (Planet × ℝ)) (p : Planet) : ℝ :=
  ((cd.filter (fun x => decide (x.1 = p))).map Prod.snd).headD 0

/-- `sorted_planets = sorted([p for p in current_distances.keys() if p != "Earth"],
key=lambda p: current_distances[p])` (a stable sort by the stored distance). -/
noncomputable def sorted_planets (cd : List (Planet × ℝ)) : List Planet :=
  (cd.map Prod.fst).mergeSort (fun p q => decide (keyOf cd p ≤ keyOf cd q))

/-- `closest_order[p] = sorted_planets.index(p) + 1` (1-based current rank). -/
noncomputable def closest_order (cd : List (Planet × ℝ)) (p : Planet) : ℕ :=
  (sorted_planets cd).indexOf p + 1

/-- `avg_distance = distance_sums[planet] / frame_count if frame_count > 0 else 0`
(from `update_table`). -/
noncomputable def avg_distance (st : Stats) (p : Planet) : ℝ :=
  if st.frame_count > 0 then st.distance_sums p / st.frame_count else 0

/-- `closest_percentage[planet] = round((closest_counts[planet] / frame_count) * 100, 2)
if frame_count > 0 else 0` (from `update_table`). -/
noncomputable def closest_percentage (st : Stats) (p : Planet) : ℝ :=
  if st.frame_count > 0 then round2 ((st.closest_counts p : ℝ) / st.frame_count * 100) else 0

/-- The zeroed tracking state installed by `start_simulation`:
`frame_count = 0`, fresh all-zero `closest_counts` and `distance_sums` dicts. -/
def reset_stats : Stats :=
  { frame_count := 0, closest_counts := fun _ => 0, distance_sums := fun _ => 0 }

/-- The reset operation performed at the top of `start_simulation`, viewed as a
state transformer: it discards the current counters and installs fresh zeros. -/
def resetOp (_ : Stats) : Stats := reset_stats

/-- A run of successfully processed frames: fold `update` over the per-frame
ephemeris responses, starting from a given state. -/
noncomputable def runFrames (ephs : List Eph) (st : Stats) : Stats :=
  ephs.foldl (fun s e => update e s) st

/-- Sum over all planets of `closest_counts`, i.e. `sum(closest_counts.values())`. -/
def sumCounts (st : Stats) : ℕ := (planets.map st.closest_counts).sum

/-- `range(0, stop, step)` for `step > 0`: the multiples of `step` below `stop`. -/
def pyRange0 (stop : ℤ) (step : ℕ) : List ℤ :=
  (List.range ((stop.toNat + step - 1) / step)).map (fun k : ℕ => ((k : ℤ) * (step : ℤ)))

/-- `update_dates()`: `dates = [ts.utc(start_year, 1, 1).tt + i
for i in range(0, (end_year - start_year) * 365, step_days)]`, where `tt0 y`
stands for the Julian date `ts.utc(y, 1, 1).tt` of day 1 of year `y`. -/
def update_dates (tt0 : ℤ → ℚ) (s e : ℤ) (d : ℕ) : List ℚ :=
  (pyRange0 ((e - s) * 365) d).map (fun i : ℤ => tt0 s + (i : ℚ))

/-- `step_days = 1`. -/
def step_days : ℕ := 1

/-- The mutable module-level GUI state: the `start_year` / `end_year` globals,
the current text of the two `TextBox` widgets, the tracking counters, the
`dates` list, and whether the animation timer is running. -/
structure AppState where
  start_year : ℤ
  end_year : ℤ
  text_start : String
  text_end : String
  stats : Stats
  dates : List ℚ
  running : Bool

/-- GUI events: editing either year text box, clicking Start or Stop, and one
animation-timer tick carrying that frame's ephemeris responses. -/
inductive Event where
  | setStartText (s : String)
  | setEndText (s : String)
  | clickStart
  | clickStop
  | tick (e : Eph)

/-- One GUI event step. Editing a `TextBox` only changes the widget's text:
the source registers no `on_submit` callback, so the `start_year` / `end_year`
globals are never updated. `clickStart` runs `start_simulation`: zero the
counters, regenerate `dates` from the globals via `update_dates()`, and start
the timer. `clickStop` runs `stop_simulation`: stop the timer only. A timer
tick runs `update` when the timer is running. -/
noncomputable def step (tt0 : ℤ → ℚ) (a : AppState) : Event → AppState
  | .setStartText s => { a with text_start := s }
  | .setEndText s => { a with text_end := s }
  | .clickStart =>
    { a with stats := reset_stats
             dates := update_dates tt0 a.start_year a.end_year step_days
             running := true }
  | .clickStop => { a with running := false }
  | .tick e => if a.running then { a with stats := update e a.stats } else a

/-- The module-level initial state: `start_year = 0`, `end_year = 2999`,
text boxes initialised to those values, zero counters, `dates` computed by the
initial `update_dates()` call, animation not yet running. -/
def init_state (tt0 : ℤ → ℚ) : AppState :=
  { start_year := 0
    end_year := 2999
    text_start := "0"
    text_end := "2999"
    stats := reset_stats
    dates := update_dates tt0 0 2999 step_days
    running := false }

/-- `update` with fallible ephemeris lookups. The callback increments
`frame_count` before the first lookup; if any required lookup raises, the
exception propagates out of `update` with `closest_counts` and `distance_sums`
untouched, which we record as an `error` carrying the state left behind. -/
noncomputable def update_fallible (e : Body → Option Vec3) (st : Stats) : Except Stats Stats :=
  if (e Body.sun).isSome ∧ ∀ p ∈ planets, (e (Body.planet p)).isSome then
    Except.ok (update (fun b => (e b).getD (0, 0, 0)) st)
  else
    Except.error { st with frame_count := st.frame_count + 1 }

/-- The arithmetic mean of a list of reals. -/
noncomputable def arithMean (l : List ℝ) : ℝ := l.sum / l.length

/-- The ephemeris response placing every body at the origin. -/
def eph0 : Eph := fun _ => (0, 0, 0)

/-- An ephemeris response with all bodies on the positive x-axis and Earth at
the origin, chosen so that Mercury and Venus have distances 1.004 and 1.001. -/
def ephC1 : Eph := fun b =>
  match b with
  | Body.sun => (0, 0, 0)
  | Body.planet Earth => (0, 0, 0)
  | Body.planet Mercury => (1004 / 1000, 0, 0)
  | Body.planet Venus => (1001 / 1000, 0, 0)
  | Body.planet Mars => (3, 0, 0)
  | Body.planet Jupiter => (4, 0, 0)
  | Body.planet Saturn => (5, 0, 0)
  | Body.planet Uranus => (6, 0, 0)
  | Body.planet Neptune => (7, 0, 0)

/-- An ephemeris response at a time point without coverage: every lookup raises. -/
def ephFail : Body → Option Vec3 := fun _ => none

theorem planets_eq :
    planets = [Mercury, Venus, Earth, Mars, Jupiter, Saturn, Uranus, Neptune] := rfl

theorem nonEarth_eq :
    nonEarth = [Mercury, Venus, Mars, Jupiter, Saturn, Uranus, Neptune] := rfl

theorem table_planets_eq :
    table_planets = [Mercury, Venus, Mars, Jupiter, Saturn, Uranus, Neptune] := rfl

theorem default_rat : (default : ℚ) = 0 := rfl

theorem default_real : (default : ℝ) = 0 := rfl

theorem argminIdx_cons_cons {α : Type} [LinearOrder α] [Inhabited α] (x : α) (t : List α)
    (ht : t ≠ []) :
    argminIdx (x :: t) =
      if x ≤ t.getD (argminIdx t) default then 0 else argminIdx t + 1 := by
  cases t with
  | nil => exact (ht rfl).elim
  | cons y rest => rfl

theorem argminIdx_lt_length {α : Type} [LinearOrder α] [Inhabited α] :
    ∀ (l : List α), l ≠ [] → argminIdx l < l.length
  | [], h => (h rfl).elim
  | [_], _ => by simp [argminIdx]
  | x :: y :: rest, _ => by
    have ih := argminIdx_lt_length (y :: rest) (by simp)
    rw [argminIdx_cons_cons x (y :: rest) (by simp)]
    by_cases h : x ≤ (y :: rest).getD (argminIdx (y :: rest)) default
    · rw [if_pos h]
      simp
    · rw [if_neg h]
      simp only [List.length_cons] at ih ⊢
      omega

theorem argminIdx_le {α : Type} [LinearOrder α] [Inhabited α] :
    ∀ (l : List α) (j : ℕ), j < l.length →
      l.getD (argminIdx l) default ≤ l.getD j default
  | [], j, hj => by simp at hj
  | [x], j, hj => by
    have : j = 0 := by simpa using Nat.lt_one_iff.mp (by simpa using hj)
    subst this
    simp [argminIdx]
  | x :: y :: rest, j, hj => by
    rw [argminIdx_cons_cons x (y :: rest) (by simp)]
    by_cases h : x ≤ (y :: rest).getD (argminIdx (y :: rest)) default
    · rw [if_pos h]
      cases j with
      | zero => simp
      | succ i =>
        have hi : i < (y :: rest).length := by simpa using hj
        simp only [List.getD_cons_zero, List.getD_cons_succ]
        exact le_trans h (argminIdx_le (y :: rest) i hi)
    · rw [if_neg h]
      cases j with
      | zero =>
        simp only [List.getD_cons_zero, List.getD_cons_succ]
        exact (not_le.mp h).le
      | succ i =>
        simp only [List.getD_cons_succ]
        exact argminIdx_le (y :: rest) i (by simpa using hj)

theorem argminIdx_first {α : Type} [LinearOrder α] [Inhabited α] :
    ∀ (l : List α) (j : ℕ), j < argminIdx l →
      l.getD (argminIdx l) default < l.getD j default
  | [], j, hj => by simp [argminIdx] at hj
  | [x], j, hj => by simp [argminIdx] at hj
  | x :: y :: rest, j, hj => by
    rw [argminIdx_cons_cons x (y :: rest) (by simp)] at hj ⊢
    by_cases h : x ≤ (y :: rest).getD (argminIdx (y :: rest)) default
    · rw [if_pos h] at hj
      exact absurd hj (Nat.not_lt_zero j)
    · rw [if_neg h] at hj ⊢
      cases j with
      | zero =>
        simp only [List.getD_cons_zero, List.getD_cons_succ]
        exact not_le.mp h
      | succ i =>
        simp only [List.getD_cons_succ]
        exact argminIdx_first (y :: rest) i (by omega)

theorem getD_map_ratCast (l : List ℚ) (i : ℕ) (d : ℚ) :
    (l.map (fun q => (q : ℝ))).getD i ((d : ℚ) : ℝ) = ((l.getD i d : ℚ) : ℝ) := by
  induction l generalizing i with
  | nil => simp
  | cons x xs ih =>
    cases i with
    | zero => simp
    | succ n => simpa using ih n

theorem argminIdx_map_ratCast :
    ∀ (l : List ℚ), argminIdx (l.map (fun q => (q : ℝ))) = argminIdx l
  | [] => by simp [argminIdx]
  | [x] => by simp [argminIdx]
  | x :: y :: rest => by
    have ih := argminIdx_map_ratCast (y :: rest)
    have hg : ((y :: rest).map (fun q => (q : ℝ))).getD
        (argminIdx ((y :: rest).map (fun q => (q : ℝ)))) default
        = (((y :: rest).getD (argminIdx (y :: rest)) default : ℚ) : ℝ) := by
      rw [ih, default_real, show (0 : ℝ) = ((0 : ℚ) : ℝ) by norm_num,
        getD_map_ratCast, default_rat]
    rw [show (x :: y :: rest).map (fun q => (q : ℝ))
        = (x : ℝ) :: (y :: rest).map (fun q => (q : ℝ)) from rfl]
    rw [argminIdx_cons_cons (x : ℝ) ((y :: rest).map (fun q => (q : ℝ))) (by simp)]
    rw [argminIdx_cons_cons x (y :: rest) (by simp)]
    rw [hg, ih]
    by_cases h : x ≤ (y :: rest).getD (argminIdx (y :: rest)) default
    · rw [if_pos (by exact_mod_cast h), if_pos h]
    · rw [if_neg (fun hc => h (by exact_mod_cast hc)), if_neg h]

theorem addSums_apply :
    ∀ (l : List (Planet × ℝ)) (s : Planet → ℝ) (q : Planet),
      addSums s l q = s q + ((l.filter (fun x => decide (x.1 = q))).map Prod.snd).sum
  | [], s, q => by simp [addSums]
  | (p, d) :: rest, s, q => by
    rw [show addSums s ((p, d) :: rest) =
      addSums (fun r => if r = p then s r + d else s r) rest from rfl]
    rw [addSums_apply rest _ q]
    by_cases h : q = p
    · subst h
      simp [List.filter_cons]
      ring
    · have h' : ¬(p = q) := fun hc => h hc.symm
      simp [List.filter_cons, h, h']

theorem roundHalfEven_ratCast (x : ℚ) : roundHalfEven ((x : ℝ)) = roundHalfEven x := by
  unfold roundHalfEven
  rw [Rat.floor_cast]
  have e1 : (x : ℝ) - ((⌊x⌋ : ℤ) : ℝ) = ((x - ⌊x⌋ : ℚ) : ℝ) := by push_cast; ring
  have e2 : (1 : ℝ) / 2 = (((1 : ℚ) / 2 : ℚ) : ℝ) := by norm_num
  have h1 : ((x : ℝ) - (⌊x⌋ : ℤ) < 1 / 2) ↔ (x - ⌊x⌋ < 1 / 2) := by
    rw [e1, e2]
    exact Rat.cast_lt
  have h2 : ((1 : ℝ) / 2 < (x : ℝ) - (⌊x⌋ : ℤ)) ↔ ((1 : ℚ) / 2 < x - ⌊x⌋) := by
    rw [e1, e2]
    exact Rat.cast_lt
  exact if_congr h1 rfl (if_congr h2 rfl rfl)

theorem round2_ratCast (x : ℚ) : round2 ((x : ℝ)) = ((round2 x : ℚ) : ℝ) := by
  unfold round2
  rw [show (100 : ℝ) * (x : ℝ) = ((100 * x : ℚ) : ℝ) by push_cast; ring,
    roundHalfEven_ratCast]
  push_cast
  ring

theorem distances_eq_map (e : Eph) : distances e = nonEarth.map (bodyDist e) := by
  simp [distances, planet_positions, bodyDist, List.map_map, Function.comp]

theorem dist2_xaxis (a c : ℚ) (h : c ≤ a) : dist2 (a, 0) (c, 0) = ((a - c : ℚ) : ℝ) := by
  unfold dist2
  have hz : (((0 : ℚ) : ℝ) - ((0 : ℚ) : ℝ)) ^ 2 = 0 := by norm_num
  rw [show (((a, (0 : ℚ)).1 : ℝ) - (((c, (0 : ℚ)).1 : ℚ) : ℝ)) ^ 2 +
      ((((a, (0 : ℚ)).2 : ℚ) : ℝ) - (((c, (0 : ℚ)).2 : ℚ) : ℝ)) ^ 2
      = ((a : ℝ) - (c : ℝ)) ^ 2 by push_cast; ring]
  rw [Real.sqrt_sq (by exact_mod_cast sub_nonneg.mpr h)]
  push_cast
  ring

theorem current_distances_eq (e : Eph) :
    current_distances e = nonEarth.zip ((nonEarth.map (bodyDist e)).map round2) := by
  rw [current_distances, distances_eq_map]

theorem frame_sums (e : Eph) (st : Stats) (b : Planet) (hb : b ∈ table_planets) :
    (update e st).distance_sums b = st.distance_sums b + round2 (bodyDist e b) := by
  have hs : (update e st).distance_sums b
      = addSums st.distance_sums (current_distances e) b := rfl
  rw [hs, addSums_apply, current_distances_eq, nonEarth_eq]
  rw [table_planets_eq] at hb
  simp only [List.mem_cons, List.not_mem_nil, or_false] at hb
  rcases hb with rfl | rfl | rfl | rfl | rfl | rfl | rfl <;>
    simp [List.zip_cons_cons, List.filter_cons]

theorem update_frame_count (e : Eph) (st : Stats) :
    (update e st).frame_count = st.frame_count + 1 := rfl

theorem update_closest (e : Eph) (st : Stats) :
    (update e st).closest_counts (closest_planet e)
      = st.closest_counts (closest_planet e) + 1 := by
  simp [update]

theorem update_closest_other (e : Eph) (st : Stats) (q : Planet)
    (hq : q ≠ closest_planet e) :
    (update e st).closest_counts q = st.closest_counts q := by
  simp [update, hq]

theorem sumCounts_update (e : Eph) (st : Stats) :
    sumCounts (update e st) = sumCounts st + 1 := by
  cases hc : closest_planet e <;>
    simp [sumCounts, planets_eq, update, hc] <;> ring

theorem runFrames_cons (e : Eph) (rest : List Eph) (st : Stats) :
    runFrames (e :: rest) st = runFrames rest (update e st) := rfl

theorem runFrames_frame_count :
    ∀ (ephs : List Eph) (st : Stats),
      (runFrames ephs st).frame_count = st.frame_count + ephs.length
  | [], st => by simp [runFrames]
  | e :: rest, st => by
    rw [runFrames_cons, runFrames_frame_count rest (update e st), update_frame_count]
    simp only [List.length_cons]
    omega

theorem runFrames_sumCounts :
    ∀ (ephs : List Eph) (st : Stats),
      sumCounts (runFrames ephs st) = sumCounts st + ephs.length
  | [], st => by simp [runFrames]
  | e :: rest, st => by
    rw [runFrames_cons, runFrames_sumCounts rest (update e st), sumCounts_update]
    simp only [List.length_cons]
    omega

theorem runFrames_distance_sums :
    ∀ (ephs : List Eph) (st : Stats) (b : Planet), b ∈ table_planets →
      (runFrames ephs st).distance_sums b
        = st.distance_sums b + (ephs.map (fun e => round2 (bodyDist e b))).sum
  | [], st, b, _ => by simp [runFrames]
  | e :: rest, st, b, hb => by
    rw [runFrames_cons, runFrames_distance_sums rest (update e st) b hb,
      frame_sums e st b hb]
    simp only [List.map_cons, List.sum_cons]
    ring

theorem bodyDist_eph0 (p : Planet) : bodyDist eph0 p = 0 := by
  simp [bodyDist, eph0, earth_pos, sub3, proj2, dist2]

theorem distances_eph0 : distances eph0 = [0, 0, 0, 0, 0, 0, 0] := by
  rw [distances_eq_map, nonEarth_eq]
  simp [bodyDist_eph0]

theorem closest_planet_eph0 : closest_planet eph0 = Mercury := by
  unfold closest_planet min_index
  rw [distances_eph0]
  norm_num [argminIdx]
  rfl

theorem bodyDist_ephC1_Mercury : bodyDist ephC1 Mercury = ((1004 / 1000 : ℚ) : ℝ) := by
  have h : bodyDist ephC1 Mercury = dist2 (1004 / 1000, 0) (0, 0) := by
    simp [bodyDist, ephC1, earth_pos, sub3, proj2, Prod.ext_iff]
  rw [h, dist2_xaxis _ _ (by norm_num)]
  norm_num

theorem bodyDist_ephC1_Venus : bodyDist ephC1 Venus = ((1001 / 1000 : ℚ) : ℝ) := by
  have h : bodyDist ephC1 Venus = dist2 (1001 / 1000, 0) (0, 0) := by
    simp [bodyDist, ephC1, earth_pos, sub3, proj2, Prod.ext_iff]
  rw [h, dist2_xaxis _ _ (by norm_num)]
  norm_num

theorem bodyDist_ephC1_Mars : bodyDist ephC1 Mars = ((3 : ℚ) : ℝ) := by
  have h : bodyDist ephC1 Mars = dist2 (3, 0) (0, 0) := by
    simp [bodyDist, ephC1, earth_pos, sub3, proj2, Prod.ext_iff]
  rw [h, dist2_xaxis _ _ (by norm_num)]
  norm_num

theorem bodyDist_ephC1_Jupiter : bodyDist ephC1 Jupiter = ((4 : ℚ) : ℝ) := by
  have h : bodyDist ephC1 Jupiter = dist2 (4, 0) (0, 0) := by
    simp [bodyDist, ephC1, earth_pos, sub3, proj2, Prod.ext_iff]
  rw [h, dist2_xaxis _ _ (by norm_num)]
  norm_num

theorem bodyDist_ephC1_Saturn : bodyDist ephC1 Saturn = ((5 : ℚ) : ℝ) := by
  have h : bodyDist ephC1 Saturn = dist2 (5, 0) (0, 0) := by
    simp [bodyDist, ephC1, earth_pos, sub3, proj2, Prod.ext_iff]
  rw [h, dist2_xaxis _ _ (by norm_num)]
  norm_num

theorem bodyDist_ephC1_Uranus : bodyDist ephC1 Uranus = ((6 : ℚ) : ℝ) := by
  have h : bodyDist ephC1 Uranus = dist2 (6, 0) (0, 0) := by
    simp [bodyDist, ephC1, earth_pos, sub3, proj2, Prod.ext_iff]
  rw [h, dist2_xaxis _ _ (by norm_num)]
  norm_num

theorem bodyDist_ephC1_Neptune : bodyDist ephC1 Neptune = ((7 : ℚ) : ℝ) := by
  have h : bodyDist ephC1 Neptune = dist2 (7, 0) (0, 0) := by
    simp [bodyDist, ephC1, earth_pos, sub3, proj2, Prod.ext_iff]
  rw [h, dist2_xaxis _ _ (by norm_num)]
  norm_num

theorem distances_ephC1 :
    distances ephC1
      = ([1004 / 1000, 1001 / 1000, 3, 4, 5, 6, 7] : List ℚ).map (fun q => (q : ℝ)) := by
  rw [distances_eq_map, nonEarth_eq]
  simp [bodyDist_ephC1_Mercury, bodyDist_ephC1_Venus, bodyDist_ephC1_Mars,
    bodyDist_ephC1_Jupiter, bodyDist_ephC1_Saturn, bodyDist_ephC1_Uranus,
    bodyDist_ephC1_Neptune]

theorem min_index_ephC1 : min_index ephC1 = 1 := by
  unfold min_index
  rw [distances_ephC1, argminIdx_map_ratCast]
  norm_num [argminIdx]

theorem closest_planet_ephC1 : closest_planet ephC1 = Venus := by
  unfold closest_planet
  rw [min_index_ephC1]
  rfl

theorem round2_ephC1_Mercury : round2 (bodyDist ephC1 Mercury) = 1 := by
  rw [bodyDist_ephC1_Mercury, round2_ratCast,
    show round2 (1004 / 1000 : ℚ) = 1 from by norm_num [round2, roundHalfEven]]
  norm_num

theorem round2_ephC1_Venus : round2 (bodyDist ephC1 Venus) = 1 := by
  rw [bodyDist_ephC1_Venus, round2_ratCast,
    show round2 (1001 / 1000 : ℚ) = 1 from by norm_num [round2, roundHalfEven]]
  norm_num

theorem round2_ephC1_Mars : round2 (bodyDist ephC1 Mars) = 3 := by
  rw [bodyDist_ephC1_Mars, round2_ratCast,
    show round2 (3 : ℚ) = 3 from by norm_num [round2, roundHalfEven]]
  norm_num

theorem round2_ephC1_Jupiter : round2 (bodyDist ephC1 Jupiter) = 4 := by
  rw [bodyDist_ephC1_Jupiter, round2_ratCast,
    show round2 (4 : ℚ) = 4 from by norm_num [round2, roundHalfEven]]
  norm_num

theorem round2_ephC1_Saturn : round2 (bodyDist ephC1 Saturn) = 5 := by
  rw [bodyDist_ephC1_Saturn, round2_ratCast,
    show round2 (5 : ℚ) = 5 from by norm_num [round2, roundHalfEven]]
  norm_num

theorem round2_ephC1_Uranus : round2 (bodyDist ephC1 Uranus) = 6 := by
  rw [bodyDist_ephC1_Uranus, round2_ratCast,
    show round2 (6 : ℚ) = 6 from by norm_num [round2, roundHalfEven]]
  norm_num

theorem round2_ephC1_Neptune : round2 (bodyDist ephC1 Neptune) = 7 := by
  rw [bodyDist_ephC1_Neptune, round2_ratCast,
    show round2 (7 : ℚ) = 7 from by norm_num [round2, roundHalfEven]]
  norm_num

theorem keyOf_current (e : Eph) (p : Planet) (hp : p ∈ table_planets) :
    keyOf (current_distances e) p = round2 (bodyDist e p) := by
  rw [current_distances_eq, nonEarth_eq]
  rw [table_planets_eq] at hp
  simp only [List.mem_cons, List.not_mem_nil, or_false] at hp
  rcases hp with rfl | rfl | rfl | rfl | rfl | rfl | rfl <;>
    simp [keyOf, List.zip_cons_cons, List.filter_cons]

theorem sorted_planets_perm (e : Eph) :
    (sorted_planets (current_distances e)).Perm nonEarth := by
  unfold sorted_planets
  have hlen : nonEarth.length ≤ ((distances e).map round2).length := by
    rw [distances_eq_map]
    simp
  have hfst : (current_distances e).map Prod.fst = nonEarth := by
    rw [current_distances]
    exact List.map_fst_zip _ _ hlen
  rw [hfst]
  exact List.mergeSort_perm nonEarth _

theorem sorted_planets_sorted (e : Eph) :
    List.Pairwise
      (fun p q => keyOf (current_distances e) p ≤ keyOf (current_distances e) q)
      (sorted_planets (current_distances e)) := by
  have h : (((current_distances e).map Prod.fst).mergeSort
      (fun p q => decide (keyOf (current_distances e) p ≤ keyOf (current_distances e) q))).Pairwise
      (fun p q =>
        decide (keyOf (current_distances e) p ≤ keyOf (current_distances e) q) = true) :=
    List.sorted_mergeSort
      (fun a b c h1 h2 => by
        simp only [decide_eq_true_eq] at h1 h2 ⊢
        exact le_trans h1 h2)
      (fun a b => by
        simp only [Bool.or_eq_true, decide_eq_true_eq]
        exact le_total _ _)
      ((current_distances e).map Prod.fst)
  exact h.imp (fun hab => of_decide_eq_true hab)

/-- C1 counterexample: at the frame `ephC1` (all bodies on the x-axis, Mercury
at distance 1.004 and Venus at 1.001 from Earth) the rounded distances are
1, 1, 3, 4, 5, 6, 7, so Mercury — the first planet in iteration order — has
minimal rounded distance; yet `update` increments Venus's `closest_counts`
and not Mercury's, because `np.argmin` runs on the distances before rounding. -/
theorem c1_counterexample :
    nonEarth.getD 0 Mercury = Mercury ∧
    round2 (bodyDist ephC1 Mercury) = 1 ∧
    round2 (bodyDist ephC1 Venus) = 1 ∧
    round2 (bodyDist ephC1 Mars) = 3 ∧
    round2 (bodyDist ephC1 Jupiter) = 4 ∧
    round2 (bodyDist ephC1 Saturn) = 5 ∧
    round2 (bodyDist ephC1 Uranus) = 6 ∧
    round2 (bodyDist ephC1 Neptune) = 7 ∧
    closest_planet ephC1 = Venus ∧
    (update ephC1 reset_stats).closest_counts Venus = 1 ∧
    (update ephC1 reset_stats).closest_counts Mercury = 0 :=
  ⟨rfl, round2_ephC1_Mercury, round2_ephC1_Venus, round2_ephC1_Mars,
    round2_ephC1_Jupiter, round2_ephC1_Saturn, round2_ephC1_Uranus,
    round2_ephC1_Neptune, closest_planet_ephC1,
    by simp [update, closest_planet_ephC1, reset_stats],
    by simp [update, closest_planet_ephC1, reset_stats]⟩

/-- C1 (amended): in `update`, the closest-Body selection is a minimum-index
scan over the UNROUNDED distances — the planet whose `closest_counts` entry is
incremented is the first planet in iteration order whose unrounded distance is
minimal — while the rounding to 2 decimal places happens afterwards, so the
rank ordering (the sort key of `sorted_planets`) and the values added to
`distance_sums` are the rounded distances. -/
theorem c1_amended (e : Eph) (st : Stats) :
    (update e st).closest_counts (closest_planet e)
      = st.closest_counts (closest_planet e) + 1 ∧
    closest_planet e = nonEarth.getD (min_index e) Mercury ∧
    min_index e < (distances e).length ∧
    (∀ j, j < (distances e).length →
      (distances e).getD (min_index e) default ≤ (distances e).getD j default) ∧
    (∀ j, j < min_index e →
      (distances e).getD (min_index e) default < (distances e).getD j default) ∧
    (∀ p, p ∈ table_planets →
      (update e st).distance_sums p = st.distance_sums p + round2 (bodyDist e p)) ∧
    (∀ p, p ∈ table_planets →
      keyOf (current_distances e) p = round2 (bodyDist e p)) ∧
    List.Pairwise
      (fun p q => keyOf (current_distances e) p ≤ keyOf (current_distances e) q)
      (sorted_planets (current_distances e)) := by
  have hne : distances e ≠ [] := by
    rw [distances_eq_map, nonEarth_eq]
    simp
  exact ⟨update_closest e st, rfl, argminIdx_lt_length _ hne,
    fun j hj => argminIdx_le _ j hj, fun j hj => argminIdx_first _ j hj,
    fun p hp => frame_sums e st p hp, fun p hp => keyOf_current e p hp,
    sorted_planets_sorted e⟩

/-- Witness for C1 (amended) at the concrete frame `eph0`. -/
theorem c1_amended_witness :
    ((update eph0 reset_stats).closest_counts (closest_planet eph0)
      = reset_stats.closest_counts (closest_planet eph0) + 1) ∧
    (0 < (distances eph0).length ∧
      (distances eph0).getD (min_index eph0) default
        ≤ (distances eph0).getD 0 default) ∧
    (Mercury ∈ table_planets ∧
      (update eph0 reset_stats).distance_sums Mercury
        = reset_stats.distance_sums Mercury + round2 (bodyDist eph0 Mercury)) :=
  ⟨(c1_amended eph0 reset_stats).1,
    ⟨by rw [distances_eph0]; norm_num,
      (c1_amended eph0 reset_stats).2.2.2.1 0 (by rw [distances_eph0]; norm_num)⟩,
    ⟨by decide, (c1_amended eph0 reset_stats).2.2.2.2.2.1 Mercury (by decide)⟩⟩

/-- C3: for every state reached by a reset followed by any number of
successfully processed frames, `sum(closest_counts.values()) = frame_count`;
moreover each processed frame increments `frame_count` by exactly 1 and
increments exactly one planet's `closest_counts` entry (that of the closest
planet) by exactly 1, leaving all other entries unchanged. -/
theorem c3_closest_sum_invariant (ephs : List Eph) (e : Eph) (st : Stats) :
    sumCounts (runFrames ephs reset_stats) = (runFrames ephs reset_stats).frame_count ∧
    (update e st).frame_count = st.frame_count + 1 ∧
    sumCounts (update e st) = sumCounts st + 1 ∧
    (update e st).closest_counts (closest_planet e)
      = st.closest_counts (closest_planet e) + 1 ∧
    ∀ q, q ≠ closest_planet e → (update e st).closest_counts q = st.closest_counts q := by
  refine ⟨?_, update_frame_count e st, sumCounts_update e st, update_closest e st,
    fun q hq => update_closest_other e st q hq⟩
  rw [runFrames_sumCounts, runFrames_frame_count]
  simp [sumCounts, reset_stats, planets_eq]

/-- Witness for C3 at one concrete processed frame. -/
theorem c3_witness :
    sumCounts (runFrames [eph0] reset_stats) = (runFrames [eph0] reset_stats).frame_count ∧
    (Venus ≠ closest_planet eph0 ∧
      (update eph0 reset_stats).closest_counts Venus
        = reset_stats.closest_counts Venus) :=
  ⟨(c3_closest_sum_invariant [eph0] eph0 reset_stats).1,
    ⟨by rw [closest_planet_eph0]; decide,
      (c3_closest_sum_invariant [eph0] eph0 reset_stats).2.2.2.2 Venus
        (by rw [closest_planet_eph0]; decide)⟩⟩

/-- C5: with `frame_count = 0` the statistics of `update_table` report average
distance 0 and closest-percentage 0 for every planet, without dividing; the
division branch is taken only under `frame_count > 0`. -/
theorem c5_zero_frame_guard (st : Stats) (b : Planet) :
    (st.frame_count = 0 → avg_distance st b = 0 ∧ closest_percentage st b = 0) ∧
    (0 < st.frame_count →
      avg_distance st b = st.distance_sums b / (st.frame_count : ℝ) ∧
      closest_percentage st b
        = round2 ((st.closest_counts b : ℝ) / (st.frame_count : ℝ) * 100)) := by
  constructor
  · intro h
    simp [avg_distance, closest_percentage, h]
  · intro h
    simp [avg_distance, closest_percentage, h]

/-- Witness for C5 at the freshly reset state. -/
theorem c5_witness :
    avg_distance reset_stats Mercury = 0 ∧ closest_percentage reset_stats Mercury = 0 :=
  (c5_zero_frame_guard reset_stats Mercury).1 rfl

/-- C8: after a reset and a non-empty run of processed frames,
`distance_sums[b] / frame_count` is the arithmetic mean of planet `b`'s
per-frame distances, each frame contributing its distance rounded to
2 decimal places. -/
theorem c8_average_is_mean (ephs : List Eph) (b : Planet) (hb : b ∈ table_planets)
    (_hne : ephs ≠ []) :
    (runFrames ephs reset_stats).distance_sums b
        / ((runFrames ephs reset_stats).frame_count : ℝ)
      = arithMean (ephs.map (fun e => round2 (bodyDist e b))) := by
  rw [runFrames_distance_sums ephs reset_stats b hb, runFrames_frame_count]
  simp [reset_stats, arithMean]

/-- Witness for C8 at a one-frame run. -/
theorem c8_witness :
    (Mercury ∈ table_planets ∧ ([eph0] : List Eph) ≠ []) ∧
    (runFrames [eph0] reset_stats).distance_sums Mercury
        / ((runFrames [eph0] reset_stats).frame_count : ℝ)
      = arithMean ([eph0].map (fun e => round2 (bodyDist e Mercury))) :=
  ⟨⟨by decide, by simp⟩, c8_average_is_mean [eph0] Mercury (by decide) (by simp)⟩

/-- C9: `update` is deterministic — identical ephemeris responses on a freshly
reset state give identical distances, identical rounded-distance table,
identical rank order, the same closest planet, and the same final state. -/
theorem c9_deterministic (e1 e2 : Eph) (h : ∀ b, e1 b = e2 b) :
    distances e1 = distances e2 ∧
    current_distances e1 = current_distances e2 ∧
    sorted_planets (current_distances e1) = sorted_planets (current_distances e2) ∧
    closest_planet e1 = closest_planet e2 ∧
    update e1 reset_stats = update e2 reset_stats := by
  have he : e1 = e2 := funext h
  subst he
  exact ⟨rfl, rfl, rfl, rfl, rfl⟩

/-- Witness for C9 with two identical ephemeris responses. -/
theorem c9_witness :
    distances eph0 = distances eph0 ∧
    current_distances eph0 = current_distances eph0 ∧
    sorted_planets (current_distances eph0) = sorted_planets (current_distances eph0) ∧
    closest_planet eph0 = closest_planet eph0 ∧
    update eph0 reset_stats = update eph0 reset_stats :=
  c9_deterministic eph0 eph0 (fun _ => rfl)

/-- C10: the reset performed by `start_simulation` is idempotent — applying it
twice yields exactly the zeroed state obtained by applying it once. -/
theorem c10_reset_idempotent (st : Stats) :
    resetOp (resetOp st) = resetOp st ∧
    resetOp st = reset_stats ∧
    (resetOp st).frame_count = 0 ∧
    (∀ p, (resetOp st).closest_counts p = 0) ∧
    (∀ p, (resetOp st).distance_sums p = 0) :=
  ⟨rfl, rfl, rfl, fun _ => rfl, fun _ => rfl⟩

/-- C7: clicking Start always zeroes `frame_count`, `closest_counts` and
`distance_sums` before any frame is processed; clicking Stop suspends further
frame processing (a subsequent tick is a no-op) and leaves the counters
unchanged. -/
theorem c7_start_resets_stop_preserves (tt0 : ℤ → ℚ) (a : AppState) (e : Eph) :
    (step tt0 a Event.clickStart).stats = reset_stats ∧
    (step tt0 a Event.clickStart).stats.frame_count = 0 ∧
    (∀ p, (step tt0 a Event.clickStart).stats.closest_counts p = 0) ∧
    (∀ p, (step tt0 a Event.clickStart).stats.distance_sums p = 0) ∧
    (step tt0 a Event.clickStop).stats = a.stats ∧
    (step tt0 a Event.clickStop).running = false ∧
    step tt0 (step tt0 a Event.clickStop) (Event.tick e) = step tt0 a Event.clickStop := by
  refine ⟨rfl, rfl, fun _ => rfl, fun _ => rfl, rfl, rfl, ?_⟩
  simp [step]

/-- C6 (code behaviour at the failing input): when every ephemeris lookup
fails on a freshly reset state, `update` has already incremented `frame_count`
before the first lookup, so the error leaves `frame_count = 1` with
`closest_counts` and `distance_sums` untouched — the state differs from the
pre-frame state and `sum(closest_counts.values()) ≠ frame_count`. -/
theorem c6_lookup_failure_nonatomic :
    update_fallible ephFail reset_stats
        = Except.error { reset_stats with frame_count := 1 } ∧
    ({ reset_stats with frame_count := 1 } : Stats).frame_count
      ≠ reset_stats.frame_count ∧
    sumCounts { reset_stats with frame_count := 1 }
      ≠ ({ reset_stats with frame_count := 1 } : Stats).frame_count := by
  refine ⟨?_, by simp [reset_stats], by simp [sumCounts, planets_eq, reset_stats]⟩
  unfold update_fallible
  rw [if_neg]
  · rfl
  · simp [ephFail]

/-- C2 (code behaviour at the failing input): typing 2000 and 2001 into the
year text boxes changes only the widgets' text — no callback updates the
`start_year` / `end_year` globals — so clicking Start regenerates `dates` from
the untouched globals 0 and 2999, producing 1094635 time points rather than a
sequence spanning the newly entered years (which would have 365 points). -/
theorem c2_year_textboxes_ignored (tt0 : ℤ → ℚ) :
    (step tt0 (step tt0 (step tt0 (init_state tt0) (Event.setStartText "2000"))
        (Event.setEndText "2001")) Event.clickStart).text_start = "2000" ∧
    (step tt0 (step tt0 (step tt0 (init_state tt0) (Event.setStartText "2000"))
        (Event.setEndText "2001")) Event.clickStart).text_end = "2001" ∧
    (step tt0 (step tt0 (step tt0 (init_state tt0) (Event.setStartText "2000"))
        (Event.setEndText "2001")) Event.clickStart).start_year = 0 ∧
    (step tt0 (step tt0 (step tt0 (init_state tt0) (Event.setStartText "2000"))
        (Event.setEndText "2001")) Event.clickStart).end_year = 2999 ∧
    (step tt0 (step tt0 (step tt0 (init_state tt0) (Event.setStartText "2000"))
        (Event.setEndText "2001")) Event.clickStart).dates
      = update_dates tt0 0 2999 1 ∧
    (step tt0 (step tt0 (step tt0 (init_state tt0) (Event.setStartText "2000"))
        (Event.setEndText "2001")) Event.clickStart).dates.length = 1094635 ∧
    ¬((step tt0 (step tt0 (step tt0 (init_state tt0) (Event.setStartText "2000"))
        (Event.setEndText "2001")) Event.clickStart).dates.length = 365) := by
  have hd : (step tt0 (step tt0 (step tt0 (init_state tt0) (Event.setStartText "2000"))
      (Event.setEndText "2001")) Event.clickStart).dates = update_dates tt0 0 2999 1 := by
    simp [step, init_state, step_days]
  have hlen : (update_dates tt0 0 2999 1).length = 1094635 := by
    unfold update_dates pyRange0
    rw [List.length_map, List.length_map, List.length_range]
    norm_num
    decide
  exact ⟨by simp [step, init_state], by simp [step, init_state], by simp [step, init_state],
    by simp [step, init_state], hd, by rw [hd, hlen], by rw [hd, hlen]; norm_num⟩

/-- C4: for start year `s ≤ e` and step `d > 0`, `update_dates` produces
exactly `⌈(e - s) * 365 / d⌉` time points, the `k`-th being day 1 of year `s`
(at Julian date `tt0 s`) advanced by `k * d` days; in particular for
`s = 2000`, `e = 2001`, `d = 1` there are exactly 365 time points. -/
theorem c4_time_sequence (tt0 : ℤ → ℚ) (s e : ℤ) (d : ℕ) (hd : 0 < d) (hse : s ≤ e) :
    ((update_dates tt0 s e d).length : ℤ)
      = ⌈((((e - s) * 365 : ℤ) : ℚ) / (d : ℚ))⌉ ∧
    (∀ k, k < (update_dates tt0 s e d).length →
      (update_dates tt0 s e d).getD k 0 = tt0 s + (k : ℚ) * (d : ℚ)) ∧
    (update_dates tt0 2000 2001 1).length = 365 := by
  have hlen365 : (update_dates tt0 2000 2001 1).length = 365 := by
    unfold update_dates pyRange0
    rw [List.length_map, List.length_map, List.length_range]
    norm_num
    decide
  refine ⟨?_, ?_, hlen365⟩
  · set N : ℕ := ((e - s) * 365 : ℤ).toNat with hN
    have hNeq : ((e - s) * 365 : ℤ) = (N : ℤ) := by
      rw [hN, Int.toNat_of_nonneg (mul_nonneg (sub_nonneg.mpr hse) (by norm_num))]
    have hlen : (update_dates tt0 s e d).length = (N + d - 1) / d := by
      unfold update_dates pyRange0
      rw [List.length_map, List.length_map, List.length_range]
    set L : ℕ := (N + d - 1) / d with hL
    have hdm := Nat.div_add_mod (N + d - 1) d
    have hmod : (N + d - 1) % d < d := Nat.mod_lt _ hd
    obtain ⟨P, hP⟩ : ∃ P, d * ((N + d - 1) / d) = P := ⟨_, rfl⟩
    rw [hP] at hdm
    have hPL : d * L = P := by rw [hL]; exact hP
    have f1 : N ≤ P := by omega
    have f2 : (P : ℤ) ≤ (N : ℤ) + (d : ℤ) - 1 := by omega
    have hdq : (0 : ℚ) < (d : ℚ) := by exact_mod_cast hd
    have hd1 : (1 : ℚ) ≤ (d : ℚ) := by exact_mod_cast hd
    have hPq : (d : ℚ) * (L : ℚ) = (P : ℚ) := by exact_mod_cast hPL
    have f1q : (N : ℚ) ≤ (P : ℚ) := by exact_mod_cast f1
    have f2q : (P : ℚ) ≤ (N : ℚ) + (d : ℚ) - 1 := by exact_mod_cast f2
    rw [hlen, hNeq]
    symm
    rw [Int.ceil_eq_iff]
    constructor
    · push_cast
      rw [lt_div_iff₀ hdq]
      linarith [hPq, f2q, hd1]
    · push_cast
      rw [div_le_iff₀ hdq]
      linarith [hPq, f1q]
  · intro k hk
    rw [List.getD_eq_getElem?_getD, List.getElem?_eq_getElem hk]
    simp only [Option.getD_some]
    simp only [update_dates, pyRange0, List.getElem_map, List.getElem_range]
    push_cast
    ring

/-- Witness for C4 at start year 2000, end year 2001, step 1 day. -/
theorem c4_witness :
    ((0 : ℕ) < 1 ∧ (2000 : ℤ) ≤ 2001) ∧
    ((update_dates (fun _ => 0) 2000 2001 1).length : ℤ)
      = ⌈((((2001 - 2000) * 365 : ℤ) : ℚ) / ((1 : ℕ) : ℚ))⌉ ∧
    (update_dates (fun _ => 0) 2000 2001 1).length = 365 :=
  ⟨⟨by norm_num, by norm_num⟩,
    (c4_time_sequence (fun _ => 0) 2000 2001 1 (by norm_num) (by norm_num)).1,
    (c4_time_sequence (fun _ => 0) 2000 2001 1 (by norm_num) (by norm_num)).2.2⟩

end MilkyWay
